import Mathlib

/-!
Verification development for the Hellio HR repository's schema-grounded
question-answering ("chat") subsystem.

The repository sources available here contain the frontend chat client
(`public/js/chat.js`: message rendering, HTML escaping, question submission),
the database schema (`backend/migrations`, schema design document), and the
project documentation describing the SQL-RAG pipeline and its security policy.
The backend SQL validator and orchestrator themselves are not among the
provided sources; following the specification, those components are modelled
here directly from the spec's words (each such definition is marked
`Modelled from the spec:`).  Frontend behaviour is embedded from
`public/js/chat.js`.
-/

namespace Helio

/-- The single-quote character (ASCII 39), the SQL string-literal delimiter. -/
def squote : Char := Char.ofNat 39

/-- A single-quote as a one-character string (used when reproducing the
frontend HTML templates, which contain quoted attribute arguments). -/
def squoteStr : String := String.mk [squote]

/-- One column of a table description: `{name, type}`. -/
structure ColumnDesc where
  name : String
  type : String
deriving DecidableEq, Repr

/-- One entry of a `SchemaDescriptor`: `{table_name, columns}`. -/
structure TableDesc where
  table_name : String
  columns : List ColumnDesc
deriving DecidableEq, Repr

/-- Modelled from the spec: the validator's rejection reasons, one specific
`ErrorKind` per rule of §4.4. -/
inductive ErrorKind where
  | MultipleStatements
  | NotReadOnly
  | ForbiddenKeyword
  | UnknownTable
deriving DecidableEq, Repr

/-- `ValidationResult`: `{accepted, normalized_sql?, reason?}`. -/
structure ValidationResult where
  accepted : Bool
  normalized_sql : Option String
  reason : Option ErrorKind
deriving DecidableEq, Repr

/-- Scanner mode for the comment stripper: plain code, a `--` line comment,
a `/* */` block comment, or the inside of a single-quoted string literal. -/
inductive CMode where
  | code
  | line
  | block
  | lit
deriving DecidableEq, Repr

/-- Modelled from the spec: strip SQL comments (`-- …` to end of line and
`/* … */`), working character by character.  The scanner is literal-aware, as
§4.4 rule 1 requires ("after removing string/quote-escaped literals"): inside
a single-quoted string literal, `--` and `/*` are ordinary characters and the
literal is kept intact; each quote toggles literal mode, so a doubled quote
`''` briefly leaves and re-enters the literal without enabling comment
detection at any character SQL would read as literal content.  A block
comment is replaced by a single space so that it still separates tokens. -/
def stripCommentsAux : CMode → List Char → List Char
  | _, [] => []
  | .code, '-' :: '-' :: rest => stripCommentsAux .line rest
  | .code, '/' :: '*' :: rest => stripCommentsAux .block rest
  | .code, c :: rest =>
      if c = squote then c :: stripCommentsAux .lit rest
      else c :: stripCommentsAux .code rest
  | .lit, c :: rest =>
      if c = squote then c :: stripCommentsAux .code rest
      else c :: stripCommentsAux .lit rest
  | .line, '\n' :: rest => '\n' :: stripCommentsAux .code rest
  | .line, _ :: rest => stripCommentsAux .line rest
  | .block, '*' :: '/' :: rest => ' ' :: stripCommentsAux .code rest
  | .block, _ :: rest => stripCommentsAux .block rest

/-- Comment stripping, starting in code mode. -/
def stripComments (s : List Char) : List Char := stripCommentsAux .code s

/-- Modelled from the spec: remove the contents of single-quoted SQL string
literals.  The flag says whether the scanner is currently inside a literal;
each quote toggles it (so a doubled quote `''` inside a literal briefly leaves
and re-enters the literal, which erases exactly the same characters).  A
literal is replaced by a single space so that it still separates tokens. -/
def stripLitAux : Bool → List Char → List Char
  | _, [] => []
  | false, c :: rest =>
      if c = squote then ' ' :: stripLitAux true rest else c :: stripLitAux false rest
  | true, c :: rest =>
      if c = squote then stripLitAux false rest else stripLitAux true rest

/-- The comment-free, literal-free skeleton of a candidate SQL string; the
text on which the structural checks of §4.4 operate. -/
def skeletonOf (sql : String) : List Char := stripLitAux false (stripComments sql.data)

/-- Statement-terminator check, modelled from the spec (§4.4 rule 1): a `;`
is allowed only as a single trailing terminator, i.e. followed by whitespace
only.  Returns `true` when some `;` is followed by any non-whitespace
character. -/
def multiStatement : List Char → Bool
  | [] => false
  | c :: rest => (c = ';' && rest.any (fun d => !d.isWhitespace)) || multiStatement rest

/-- Characters that may appear in an SQL identifier or keyword token. -/
def isIdentChar (c : Char) : Bool := c.isAlphanum || c = '_'

/-- Tokenizer accumulator: `cur` holds the reversed characters of the word
being read.  Tokens are lower-cased, so all keyword checks are
case-insensitive. -/
def tokenizeAux : List Char → List Char → List String
  | [], cur => if cur = [] then [] else [String.mk cur.reverse]
  | c :: rest, cur =>
      if isIdentChar c then tokenizeAux rest (c.toLower :: cur)
      else if cur = [] then tokenizeAux rest []
      else String.mk cur.reverse :: tokenizeAux rest []

/-- Split a character sequence into lower-cased identifier/keyword tokens. -/
def tokenize (s : List Char) : List String := tokenizeAux s []

/-- The token sequence of a candidate SQL string's skeleton. -/
def toksOf (sql : String) : List String := tokenize (skeletonOf sql)

/-- Modelled from the spec (§4.4 rule 2): the first syntactic token must be
`SELECT`, or `WITH` leading into a `SELECT`. -/
def readOnlyStart : List String → Bool
  | [] => false
  | t :: rest => t == "select" || (t == "with" && rest.contains "select")

/-- Modelled from the spec (§4.4 rule 3 and the verbs of rule 2): the explicit
deny-list of side-effecting keywords.  The spec leaves the exact list as a
policy parameter; this list carries exactly the keywords the spec names. -/
def forbiddenKeywords : List String :=
  ["insert", "update", "delete", "drop", "alter", "create", "truncate",
   "grant", "copy", "call", "execute", "pg_sleep", "into"]

/-- Does any token of the candidate appear on the deny-list? -/
def hasForbidden (toks : List String) : Bool :=
  toks.any (fun t => forbiddenKeywords.contains t)

/-- SQL keywords that end the table list introduced by `FROM` or `JOIN`
(clause openers, join qualifiers and expression keywords); any other token in
that span is an identifier the whitelist must account for. -/
def sqlKeywords : List String :=
  ["select", "from", "join", "where", "group", "order", "having", "limit",
   "offset", "on", "as", "inner", "left", "right", "full", "outer", "cross",
   "natural", "union", "intersect", "except", "all", "distinct", "and", "or",
   "not", "in", "exists", "between", "like", "is", "null", "case", "when",
   "then", "else", "end", "by", "with", "asc", "desc", "using"]

/-- Scanner for the referenced tables.  In scanning mode (`false`) it looks
for `FROM`/`JOIN`; in collecting mode (`true`) it gathers every identifier of
the table list that follows — commas were dropped by tokenization, so a
comma-separated list `FROM a, b` contributes both `a` and `b` — until an SQL
keyword closes the list (a `FROM`/`JOIN` keyword re-opens it). -/
def refTabAux : Bool → List String → List String
  | _, [] => []
  | false, t :: rest =>
      if t == "from" || t == "join" then refTabAux true rest
      else refTabAux false rest
  | true, t :: rest =>
      if t == "from" || t == "join" then refTabAux true rest
      else if sqlKeywords.contains t then refTabAux false rest
      else t :: refTabAux true rest

/-- The table names referenced by the token sequence: every identifier in a
table list opened by `FROM` or `JOIN`. -/
def referencedTables (toks : List String) : List String := refTabAux false toks

/-- The lower-cased table names of a `SchemaDescriptor` — the whitelist. -/
def schemaTableNames (schema : List TableDesc) : List String :=
  schema.map (fun td => String.mk (td.table_name.data.map Char.toLower))

/-- Modelled from the spec (§4.4 rule 4): every referenced table must appear
in the current `SchemaDescriptor`. -/
def tablesKnown (toks : List String) (schema : List TableDesc) : Bool :=
  (referencedTables toks).all (fun t => (schemaTableNames schema).contains t)

/-- Modelled from the spec (§4.4 rule 5): the fixed row-limit maximum
("a fixed maximum, e.g. 200 rows"). -/
def maxRows : Nat := 200

/-- Drop one leading `;`, if present. -/
def dropLeadSemi : List Char → List Char
  | [] => []
  | c :: rest => if c = ';' then rest else c :: rest

/-- Remove trailing whitespace and at most one trailing `;` — the single
trailing terminator the spec allows — from the text to be executed. -/
def stripTrailingSemi (s : List Char) : List Char :=
  (dropLeadSemi (s.reverse.dropWhile Char.isWhitespace)).reverse

/-- Modelled from the spec (§4.4 rules 5 and 6): the normalized SQL is the
comment-free text, without its trailing terminator, with a `LIMIT maxRows`
clause appended when the candidate has no limit clause of its own.  String
literals are kept — only comments are removed from the executed text. -/
def normalizedSqlOf (sql : String) : String :=
  if (toksOf sql).contains "limit" then
    String.mk (stripTrailingSemi (stripComments sql.data))
  else
    String.mk (stripTrailingSemi (stripComments sql.data) ++ (" LIMIT " ++ toString maxRows).data)

/-- Modelled from the spec (§4.4): `validate(candidateSql, schema)`.  The
rules are applied in order — single statement, read-only verb, forbidden
keyword scan, schema whitelist — and the first violated rule rejects with its
specific `ErrorKind`; an accepted candidate is answered with the normalized,
comment-free, limit-bounded SQL text. -/
def validate (candidateSql : String) (schema : List TableDesc) : ValidationResult :=
  if multiStatement (skeletonOf candidateSql) then
    ⟨false, none, some .MultipleStatements⟩
  else if !(readOnlyStart (toksOf candidateSql)) then
    ⟨false, none, some .NotReadOnly⟩
  else if hasForbidden (toksOf candidateSql) then
    ⟨false, none, some .ForbiddenKeyword⟩
  else if !(tablesKnown (toksOf candidateSql) schema) then
    ⟨false, none, some .UnknownTable⟩
  else
    ⟨true, some (normalizedSqlOf candidateSql), none⟩

/-- A fixture schema used by the concrete witnesses: the `candidates` table
of the repository's schema. -/
def demoSchema : List TableDesc :=
  [{ table_name := "candidates",
     columns := [{ name := "id", type := "VARCHAR(50)" },
                 { name := "status", type := "VARCHAR(20)" }] }]

/-- One result row: an ordered mapping from column names to values. -/
def Row : Type := List (String × String)

/-- `ChatResponse`: `{answer, sql?, row_count?}`. -/
structure ChatResponse where
  answer : String
  sql : Option String
  row_count : Option Nat
deriving DecidableEq, Repr

/-- The observable outcome of one chat request: the response (or surfaced
error) returned to the caller, and the SQL text that was handed to the Query
Executor during the request, if any. -/
structure PipelineOutcome where
  result : Except ErrorKind ChatResponse
  executedSql : Option String

/-- Modelled from the spec (§2, §4.7, §7): the orchestrator's pipeline
`classify → generate → validate → execute → answer` for a single request.
The external collaborators — classification, SQL generation, query execution
and answer generation — are parameters.  A classification short-circuit
answers without any query; a validation rejection surfaces the validator's
reason and executes nothing; only an accepted candidate's normalized SQL is
handed to the executor. -/
def runPipeline (needsQuery : String → Bool) (generateSql : String → String)
    (runQuery : String → List Row) (answerFromRows : String → List Row → String)
    (directAnswer : String → String) (schema : List TableDesc)
    (question : String) : PipelineOutcome :=
  if needsQuery question then
    match (validate (generateSql question) schema).normalized_sql with
    | some normalized =>
        let rows := runQuery normalized
        { result := .ok { answer := answerFromRows question rows,
                          sql := some normalized,
                          row_count := some rows.length },
          executedSql := some normalized }
    | none =>
        { result := .error ((validate (generateSql question) schema).reason.getD
                              ErrorKind.NotReadOnly),
          executedSql := none }
  else
    { result := .ok { answer := directAnswer question, sql := none, row_count := none },
      executedSql := none }

/-! ## Frontend (embedded from `public/js/chat.js`) -/

/-- One escaped character of the DOM text-node serialization: assigning
`textContent` and reading back `innerHTML` (the body of `escapeHtml` in
`chat.js`) escapes the three markup metacharacters as entity references and
leaves every other character unchanged. -/
def escapeChar (c : Char) : List Char :=
  if c = '&' then ('&' :: "amp;".data)
  else if c = '<' then ('&' :: "lt;".data)
  else if c = '>' then ('&' :: "gt;".data)
  else [c]

/-- Concatenation of the per-character escapes. -/
def escapeList : List Char → List Char
  | [] => []
  | c :: rest => escapeChar c ++ escapeList rest

/-- `escapeHtml(text)` of `chat.js`: serialize a string as HTML text. -/
def escapeHtml (s : String) : String := String.mk (escapeList s.data)

/-- JavaScript truthiness of an optional string field: absent (`undefined`)
and the empty string are falsy. -/
def jsTruthy : Option String → Bool
  | none => false
  | some s => s != ""

/-- `chat.js` line 87: `addAssistantMessage` emits the SQL trace block when
`if (response.sql)` holds. -/
def rendersTrace (r : ChatResponse) : Bool := jsTruthy r.sql

/-- JavaScript interpolation of the `row_count` field: a number, or the text
`undefined` when the field is absent. -/
def renderOptNat : Option Nat → String
  | some n => toString n
  | none => "undefined"

/-- The innerHTML `addUserMessage(question)` assigns (template literal of
`chat.js` lines 69–73). -/
def userMessageHtml (question : String) : String :=
  "\n        <div class=\"message-content\">\n            <div class=\"answer\">"
    ++ escapeHtml question
    ++ "</div>\n        </div>\n    "

/-- The innerHTML `addErrorMessage(error)` assigns (template literal of
`chat.js` lines 112–116). -/
def errorMessageHtml (error : String) : String :=
  "\n        <div class=\"message-content\">\n            <div class=\"answer error\">❌ Error: "
    ++ escapeHtml error
    ++ "</div>\n        </div>\n    "

/-- The trace block appended by `addAssistantMessage` when `response.sql` is
truthy (`chat.js` lines 88–100); `traceId` stands for the generated
`trace-${Date.now()}` identifier. -/
def traceBlockHtml (r : ChatResponse) (traceId : String) : String :=
  "\n            <div class=\"trace\">\n                <div class=\"trace-toggle\" onclick=\"toggleTrace("
    ++ squoteStr ++ traceId ++ squoteStr
    ++ ")\">\n                    📊 View SQL & Details\n                </div>\n                <div class=\"trace-details\" id=\""
    ++ traceId
    ++ "\">\n                    <div><strong>Rows returned:</strong> "
    ++ renderOptNat r.row_count
    ++ "</div>\n                    <div><strong>SQL Query:</strong></div>\n                    <pre class=\"sql-code\">"
    ++ escapeHtml (r.sql.getD "")
    ++ "</pre>\n                </div>\n            </div>\n        "

/-- The innerHTML `addAssistantMessage(response)` assigns (`chat.js` lines
83–103): the escaped answer, then the trace block when `response.sql` is
truthy, wrapped in the message-content container. -/
def assistantMessageHtml (r : ChatResponse) (traceId : String) : String :=
  "<div class=\"message-content\">"
    ++ ("<div class=\"answer\">" ++ escapeHtml r.answer ++ "</div>"
          ++ (if jsTruthy r.sql then traceBlockHtml r traceId else ""))
    ++ "</div>"

/-- The innerHTML of the loading indicator (`chat.js` lines 125–129). -/
def loadingHtml : String :=
  "\n        <div class=\"message-content\">\n            <div class=\"loading\"></div>\n        </div>\n    "

/-- JavaScript `String.prototype.trim`: remove whitespace from both ends. -/
def trimJs (s : String) : String :=
  String.mk (((s.data.dropWhile Char.isWhitespace).reverse.dropWhile Char.isWhitespace).reverse)

/-- The chat DOM state observable through `chatMessages` and the question
input field. -/
structure ChatState where
  messages : List String
  inputValue : String
deriving DecidableEq, Repr

/-- The synchronous prefix of `askQuestion(question)` (`chat.js` lines
154–181), up to and including the issuing of the HTTP request: a blank or
whitespace-only question returns immediately; otherwise the input field is
cleared when the question came from it, the user message and the loading
indicator are appended, and the request body question (`question.trim()`) is
sent.  The second component is the request sent, if any. -/
def askQuestionStep (question : String) (st : ChatState) : ChatState × Option String :=
  if question == "" || trimJs question == "" then
    (st, none)
  else
    let st1 := if question == st.inputValue then { st with inputValue := "" } else st
    ({ st1 with messages := st1.messages ++ [userMessageHtml question, loadingHtml] },
     some (trimJs question))

/-! ## Helper lemmas -/

/-- A `;` followed (anywhere later) by a non-whitespace character makes the
statement-terminator check fire. -/
theorem multiStatement_of_split (pre mid post : List Char) (d : Char)
    (hd : d.isWhitespace = false) :
    multiStatement (pre ++ ';' :: (mid ++ d :: post)) = true := by
  induction pre with
  | nil =>
      have hany : (mid ++ d :: post).any (fun e => !e.isWhitespace) = true := by
        simp only [List.any_eq_true]
        exact ⟨d, by simp, by simp [hd]⟩
      simp [multiStatement, hany]
  | cons c pre ih =>
      simp only [List.cons_append, multiStatement, Bool.or_eq_true]
      exact Or.inr ih

/-- Every character emitted by the literal stripper is a space or a character
of the input. -/
theorem mem_stripLitAux (s : List Char) :
    ∀ (mode : Bool) (c : Char), c ∈ stripLitAux mode s → c = ' ' ∨ c ∈ s := by
  induction s with
  | nil => intro mode c h; cases mode <;> simp [stripLitAux] at h
  | cons a rest ih =>
      intro mode c h
      cases mode with
      | false =>
          by_cases ha : a = squote
          · simp only [stripLitAux, if_pos ha, List.mem_cons] at h
            rcases h with h | h
            · exact Or.inl h
            · rcases ih true c h with h' | h'
              · exact Or.inl h'
              · exact Or.inr (List.mem_cons_of_mem _ h')
          · simp only [stripLitAux, if_neg ha, List.mem_cons] at h
            rcases h with h | h
            · exact Or.inr (by simp [h])
            · rcases ih false c h with h' | h'
              · exact Or.inl h'
              · exact Or.inr (List.mem_cons_of_mem _ h')
      | true =>
          by_cases ha : a = squote
          · simp only [stripLitAux, if_pos ha] at h
            rcases ih false c h with h' | h'
            · exact Or.inl h'
            · exact Or.inr (List.mem_cons_of_mem _ h')
          · simp only [stripLitAux, if_neg ha] at h
            rcases ih true c h with h' | h'
            · exact Or.inl h'
            · exact Or.inr (List.mem_cons_of_mem _ h')

/-- A non-empty token list means the scanned text contains an identifier
character (or the accumulator was already non-empty). -/
theorem tokenizeAux_ne_nil (s : List Char) :
    ∀ cur : List Char, tokenizeAux s cur ≠ [] →
      (∃ c ∈ s, isIdentChar c = true) ∨ cur ≠ [] := by
  induction s with
  | nil =>
      intro cur h
      by_cases hc : cur = []
      · simp [tokenizeAux, hc] at h
      · exact Or.inr hc
  | cons a rest ih =>
      intro cur h
      by_cases hA : isIdentChar a = true
      · exact Or.inl ⟨a, by simp, hA⟩
      · have hA' : isIdentChar a = false := by simpa using hA
        by_cases hc : cur = []
        · rw [hc] at h
          simp only [tokenizeAux, hA', Bool.false_eq_true, if_false, if_pos rfl] at h
          rcases ih [] h with h' | h'
          · rcases h' with ⟨c, hm, hi⟩
            exact Or.inl ⟨c, List.mem_cons_of_mem _ hm, hi⟩
          · exact absurd rfl h'
        · exact Or.inr hc

/-- Membership survives `dropWhile` for an element the predicate refuses. -/
theorem mem_dropWhile_of_not {α : Type} {p : α → Bool} (c : α) :
    ∀ l : List α, c ∈ l → p c = false → c ∈ l.dropWhile p := by
  intro l
  induction l with
  | nil => intro h _; simp at h
  | cons a rest ih =>
      intro hm hp
      by_cases ha : p a = true
      · rw [List.dropWhile_cons, if_pos ha]
        rcases List.mem_cons.mp hm with h | h
        · subst h; rw [hp] at ha; cases ha
        · exact ih h hp
      · have ha' : p a = false := by simpa using ha
        rw [List.dropWhile_cons, if_neg (by simp [ha'])]
        exact hm

/-- `dropLeadSemi` cannot empty a list containing a non-semicolon element. -/
theorem dropLeadSemi_ne_nil (l : List Char) (c : Char) (hm : c ∈ l) (hs : c ≠ ';') :
    dropLeadSemi l ≠ [] := by
  cases l with
  | nil => simp at hm
  | cons a rest =>
      by_cases ha : a = ';'
      · rw [dropLeadSemi, if_pos ha]
        rcases List.mem_cons.mp hm with h | h
        · exact absurd (h.trans ha) hs
        · intro hnil; rw [hnil] at h; simp at h
      · rw [dropLeadSemi, if_neg ha]
        simp

/-- Identifier characters are not whitespace. -/
theorem isIdentChar_not_ws (c : Char) (h : isIdentChar c = true) :
    c.isWhitespace = false := by
  by_contra hw
  have hw' : c.isWhitespace = true := by simpa using hw
  have hcases : ((c = ' ' ∨ c = '\t') ∨ c = '\r') ∨ c = '\n' := by
    simpa [Char.isWhitespace] using hw'
  rcases hcases with ((h' | h') | h') | h' <;> (subst h'; exact absurd h (by decide))

/-- Identifier characters are not the statement terminator. -/
theorem isIdentChar_ne_semi (c : Char) (h : isIdentChar c = true) : c ≠ ';' := by
  intro he; subst he; exact absurd h (by decide)

/-- A candidate with at least one token has a non-empty normalization base:
removing the trailing terminator from the comment-free text cannot produce
the empty text. -/
theorem base_ne_nil (sql : String) (h : toksOf sql ≠ []) :
    stripTrailingSemi (stripComments sql.data) ≠ [] := by
  have h0 : tokenizeAux (skeletonOf sql) [] ≠ [] := h
  rcases tokenizeAux_ne_nil (skeletonOf sql) [] h0 with h' | h'
  · rcases h' with ⟨c, hm, hi⟩
    rcases mem_stripLitAux (stripComments sql.data) false c hm with h'' | h''
    · subst h''; exact absurd hi (by decide)
    · intro hnil
      have hrev : dropLeadSemi ((stripComments sql.data).reverse.dropWhile Char.isWhitespace) = [] := by
        have := congrArg List.reverse hnil
        simpa [stripTrailingSemi] using this
      exact dropLeadSemi_ne_nil _ c
        (mem_dropWhile_of_not c _ (by simpa using h'') (isIdentChar_not_ws c hi))
        (isIdentChar_ne_semi c hi) hrev
  · exact absurd rfl h'

/-- A `String.mk` of a non-empty character list is not the empty string. -/
theorem string_mk_ne_empty (l : List Char) (h : l ≠ []) : String.mk l ≠ "" := by
  intro he
  exact h (congrArg String.data he)

/-- An accepted candidate's normalized SQL text is never empty. -/
theorem normalizedSqlOf_ne_empty (sql : String) (h : toksOf sql ≠ []) :
    normalizedSqlOf sql ≠ "" := by
  unfold normalizedSqlOf
  by_cases hl : (toksOf sql).contains "limit"
  · rw [if_pos hl]
    exact string_mk_ne_empty _ (base_ne_nil sql h)
  · rw [if_neg hl]
    apply string_mk_ne_empty
    simp

/-- A read-only start requires at least one token. -/
theorem readOnlyStart_ne_nil (toks : List String) (h : readOnlyStart toks = true) :
    toks ≠ [] := by
  intro hnil; rw [hnil] at h; simp [readOnlyStart] at h

/-- The two possible shapes of a `validate` result: accepted with a non-empty
normalized SQL and no reason, or rejected with a reason and no SQL. -/
theorem validate_shape (sql : String) (schema : List TableDesc) :
    ((validate sql schema).accepted = true ∧ (validate sql schema).reason = none ∧
      ∃ s, (validate sql schema).normalized_sql = some s ∧ s ≠ "")
    ∨ ((validate sql schema).accepted = false ∧
        (validate sql schema).normalized_sql = none ∧
        ∃ k, (validate sql schema).reason = some k) := by
  unfold validate
  split_ifs with h1 h2 h3 h4
  · exact Or.inr ⟨rfl, rfl, _, rfl⟩
  · exact Or.inr ⟨rfl, rfl, _, rfl⟩
  · exact Or.inr ⟨rfl, rfl, _, rfl⟩
  · exact Or.inr ⟨rfl, rfl, _, rfl⟩
  · refine Or.inl ⟨rfl, rfl, normalizedSqlOf sql, rfl, ?_⟩
    apply normalizedSqlOf_ne_empty
    have hro : readOnlyStart (toksOf sql) = true := by simpa using h2
    exact readOnlyStart_ne_nil _ hro

/-- `escapeChar` never emits a raw `<`. -/
theorem escapeChar_count_lt (c : Char) : (escapeChar c).count '<' = 0 := by
  unfold escapeChar
  split_ifs with h1 h2 h3
  · decide
  · decide
  · decide
  · simp [List.count_cons, h2]

/-- `escapeChar` never emits a raw `>`. -/
theorem escapeChar_count_gt (c : Char) : (escapeChar c).count '>' = 0 := by
  unfold escapeChar
  split_ifs with h1 h2 h3
  · decide
  · decide
  · decide
  · simp [List.count_cons, h3]

/-- The escaped form of any text contains no raw `<`. -/
theorem escapeList_count_lt (l : List Char) : (escapeList l).count '<' = 0 := by
  induction l with
  | nil => rfl
  | cons c rest ih =>
      simp [escapeList, List.count_append, escapeChar_count_lt, ih]

/-- The escaped form of any text contains no raw `>`. -/
theorem escapeList_count_gt (l : List Char) : (escapeList l).count '>' = 0 := by
  induction l with
  | nil => rfl
  | cons c rest ih =>
      simp [escapeList, List.count_append, escapeChar_count_gt, ih]

/-- `escapeHtml` form of the `<`-freeness, stated on `String`. -/
theorem escapeHtml_count_lt (s : String) : (escapeHtml s).data.count '<' = 0 :=
  escapeList_count_lt s.data

/-- `escapeHtml` form of the `>`-freeness, stated on `String`. -/
theorem escapeHtml_count_gt (s : String) : (escapeHtml s).data.count '>' = 0 :=
  escapeList_count_gt s.data

/-! ## Claim theorems -/

/-- C1: a candidate SQL string whose comment-free, literal-free text contains
a statement terminator `;` followed by a second statement (any later
non-whitespace character) is rejected by `validate`, for every schema —
case and whitespace obfuscation cannot avoid this, since the hypothesis
quantifies over all such strings. -/
theorem validate_rejects_stacked_statements (sql : String) (schema : List TableDesc)
    (pre mid post : List Char) (d : Char)
    (hsplit : skeletonOf sql = pre ++ ';' :: (mid ++ d :: post))
    (hd : d.isWhitespace = false) :
    (validate sql schema).accepted = false := by
  have hm : multiStatement (skeletonOf sql) = true := by
    rw [hsplit]; exact multiStatement_of_split pre mid post d hd
  unfold validate
  rw [if_pos hm]

/-- Witness for C1: a stacked query whose first statement ends in a string
literal containing `--`; the literal-aware scanner still sees the `;` and the
second statement. -/
theorem validate_rejects_stacked_statements_witness :
    (validate "SELECT 'a--b' FROM candidates; DROP TABLE candidates" demoSchema).accepted
      = false :=
  validate_rejects_stacked_statements
    "SELECT 'a--b' FROM candidates; DROP TABLE candidates" demoSchema
    "SELECT   FROM candidates".data [' '] "ROP TABLE candidates".data 'D'
    (by decide) (by decide)

/-- C2: a candidate whose leading token (after comment, literal and
whitespace stripping, case-insensitively) is neither `SELECT` nor `WITH`
leading into a `SELECT` is rejected by `validate`. -/
theorem validate_rejects_non_select (sql : String) (schema : List TableDesc)
    (h : readOnlyStart (toksOf sql) = false) :
    (validate sql schema).accepted = false := by
  unfold validate
  split_ifs with h1 h2 h3 h4 <;> first | rfl | (rw [h] at h2; simp at h2)

/-- Witness for C2: the write verb `DrOp`, in mixed case. -/
theorem validate_rejects_non_select_witness :
    (validate "DrOp TABLE candidates" demoSchema).accepted = false :=
  validate_rejects_non_select "DrOp TABLE candidates" demoSchema (by decide)

/-- C3: a candidate referencing a table (a token following `FROM` or `JOIN`)
that is absent from the schema whitelist is rejected by `validate`. -/
theorem validate_rejects_unknown_table (sql : String) (schema : List TableDesc)
    (t : String) (hmem : t ∈ referencedTables (toksOf sql))
    (habs : (schemaTableNames schema).contains t = false) :
    (validate sql schema).accepted = false := by
  unfold validate
  split_ifs with h1 h2 h3 h4 <;> try rfl
  exfalso
  have h4' : tablesKnown (toksOf sql) schema = true := by simpa using h4
  unfold tablesKnown at h4'
  have := List.all_eq_true.mp h4' t hmem
  rw [habs] at this
  cases this

/-- Witness for C3: probing the system table `pg_shadow` behind a
whitelisted table in a comma-separated `FROM` list. -/
theorem validate_rejects_unknown_table_witness :
    (validate "SELECT * FROM candidates, pg_shadow" demoSchema).accepted = false :=
  validate_rejects_unknown_table "SELECT * FROM candidates, pg_shadow" demoSchema
    "pg_shadow" (by decide) (by decide)

/-- C4: a candidate passing every other rule and containing no `LIMIT`
clause is accepted — not rejected — and its normalized SQL carries an
injected row limit that is at most the configured maximum. -/
theorem validate_injects_limit (sql : String) (schema : List TableDesc)
    (h1 : multiStatement (skeletonOf sql) = false)
    (h2 : readOnlyStart (toksOf sql) = true)
    (h3 : hasForbidden (toksOf sql) = false)
    (h4 : tablesKnown (toksOf sql) schema = true)
    (h5 : (toksOf sql).contains "limit" = false) :
    (validate sql schema).accepted = true ∧
      ∃ n, n ≤ maxRows ∧
        (validate sql schema).normalized_sql =
          some (String.mk (stripTrailingSemi (stripComments sql.data)
                             ++ (" LIMIT " ++ toString n).data)) := by
  unfold validate
  rw [if_neg (by simp [h1]), if_neg (by simp [h2]), if_neg (by simp [h3]),
      if_neg (by simp [h4])]
  refine ⟨rfl, maxRows, le_refl _, ?_⟩
  unfold normalizedSqlOf
  rw [if_neg (by rw [h5]; simp)]

/-- Witness for C4: `SELECT * FROM candidates` has no limit clause and is
accepted with `LIMIT 200` appended. -/
theorem validate_injects_limit_witness :
    (validate "SELECT * FROM candidates" demoSchema).accepted = true ∧
      ∃ n, n ≤ maxRows ∧
        (validate "SELECT * FROM candidates" demoSchema).normalized_sql =
          some (String.mk (stripTrailingSemi (stripComments "SELECT * FROM candidates".data)
                             ++ (" LIMIT " ++ toString n).data)) :=
  validate_injects_limit "SELECT * FROM candidates" demoSchema
    (by decide) (by decide) (by decide) (by decide) (by decide)

/-- C5: in every run of the chat pipeline — all error paths included — a SQL
text reaches the Query Executor only if the validator accepted this request's
candidate, and the executed text is exactly the validator's normalized,
comment-free, limit-bounded SQL, never the raw candidate. -/
theorem no_unvalidated_sql_reaches_executor
    (needsQuery : String → Bool) (generateSql : String → String)
    (runQuery : String → List Row) (answerFromRows : String → List Row → String)
    (directAnswer : String → String) (schema : List TableDesc) (question : String)
    (s : String)
    (h : (runPipeline needsQuery generateSql runQuery answerFromRows directAnswer
            schema question).executedSql = some s) :
    (validate (generateSql question) schema).accepted = true ∧
      (validate (generateSql question) schema).normalized_sql = some s := by
  unfold runPipeline at h
  by_cases hq : needsQuery question = true
  · obtain ⟨ha, _, s', hs', _⟩ | ⟨_, hn, _⟩ := validate_shape (generateSql question) schema
    · rw [if_pos hq, hs'] at h
      simp at h
      subst h
      exact ⟨ha, hs'⟩
    · rw [if_pos hq, hn] at h
      simp at h
  · rw [if_neg hq] at h
    simp at h

/-- Witness for C5: a concrete pipeline run that executes SQL did validate it
and executed the normalized text. -/
theorem no_unvalidated_sql_reaches_executor_witness :
    (validate "SELECT * FROM candidates" demoSchema).accepted = true ∧
      (validate "SELECT * FROM candidates" demoSchema).normalized_sql =
        some "SELECT * FROM candidates LIMIT 200" :=
  no_unvalidated_sql_reaches_executor
    (fun _ => true) (fun _ => "SELECT * FROM candidates")
    (fun _ => []) (fun _ _ => "answer") (fun _ => "hello") demoSchema
    "How many candidates?" "SELECT * FROM candidates LIMIT 200" (by decide)

/-- C6: every `ValidationResult` produced by `validate` is consistent: the
reason is absent exactly when the result is accepted (never both accepted and
reason present), and a normalized SQL is present exactly when accepted. -/
theorem validate_result_consistent (sql : String) (schema : List TableDesc) :
    (validate sql schema).reason.isNone = (validate sql schema).accepted ∧
      (validate sql schema).normalized_sql.isSome = (validate sql schema).accepted := by
  rcases validate_shape sql schema with ⟨ha, hr, s, hs, _⟩ | ⟨ha, hn, k, hr⟩
  · rw [ha, hr, hs]; exact ⟨rfl, rfl⟩
  · rw [ha, hn, hr]; exact ⟨rfl, rfl⟩

/-- C7: `validate` is a deterministic pure function — two calls on the same
candidate and the same schema yield identical `ValidationResult`s. -/
theorem validate_deterministic (sql₁ sql₂ : String) (schema₁ schema₂ : List TableDesc)
    (hq : sql₁ = sql₂) (hs : schema₁ = schema₂) :
    validate sql₁ schema₁ = validate sql₂ schema₂ := by
  subst hq; subst hs; rfl

/-- Witness for C7: two identical calls on a concrete candidate agree. -/
theorem validate_deterministic_witness :
    validate "SELECT id FROM candidates" demoSchema =
      validate "SELECT id FROM candidates" demoSchema :=
  validate_deterministic "SELECT id FROM candidates" "SELECT id FROM candidates"
    demoSchema demoSchema rfl rfl

/-- C8: in every `ChatResponse` the pipeline returns, `sql` and `row_count`
are omitted exactly when the question was answered without a database query
(the classification short-circuit), and the frontend (`addAssistantMessage`)
renders the SQL trace block exactly when `response.sql` is present. -/
theorem chat_response_sql_presence
    (needsQuery : String → Bool) (generateSql : String → String)
    (runQuery : String → List Row) (answerFromRows : String → List Row → String)
    (directAnswer : String → String) (schema : List TableDesc) (question : String)
    (r : ChatResponse)
    (h : (runPipeline needsQuery generateSql runQuery answerFromRows directAnswer
            schema question).result = Except.ok r) :
    (r.sql = none ↔ needsQuery question = false) ∧
      (r.row_count = none ↔ r.sql = none) ∧
      rendersTrace r = r.sql.isSome := by
  unfold runPipeline at h
  by_cases hq : needsQuery question = true
  · obtain ⟨_, _, s', hs', hne⟩ | ⟨_, hn, _⟩ := validate_shape (generateSql question) schema
    · rw [if_pos hq, hs'] at h
      simp at h
      subst h
      refine ⟨by simp [hq], by simp, ?_⟩
      simp [rendersTrace, jsTruthy, hne]
    · rw [if_pos hq, hn] at h
      simp at h
  · have hq' : needsQuery question = false := by simpa using hq
    rw [if_neg hq] at h
    simp at h
    subst h
    exact ⟨by simp [hq'], by simp, by simp [rendersTrace, jsTruthy]⟩

/-- Witness for C8: a concrete run through the query path yields a response
with `sql` and `row_count` present and a rendered trace block. -/
theorem chat_response_sql_presence_witness :
    ((some "SELECT * FROM candidates LIMIT 200" = none ↔
        (fun (_ : String) => true) "q" = false) ∧
      ((some 0 : Option Nat) = none ↔ some "SELECT * FROM candidates LIMIT 200" = none) ∧
      rendersTrace { answer := "answer", sql := some "SELECT * FROM candidates LIMIT 200",
                     row_count := some 0 } =
        (some "SELECT * FROM candidates LIMIT 200").isSome) := by
  have h := chat_response_sql_presence
    (fun _ => true) (fun _ => "SELECT * FROM candidates")
    (fun _ => []) (fun _ _ => "answer") (fun _ => "hello") demoSchema "q"
    { answer := "answer", sql := some "SELECT * FROM candidates LIMIT 200",
      row_count := some 0 } (by rfl)
  simpa using h

/-- C9: a question that is empty or whitespace-only makes `askQuestion`
return immediately: no HTTP request is issued and the observable chat state
(the transcript and the input field) is unchanged. -/
theorem ask_question_blank_is_noop (q : String) (st : ChatState)
    (h : ∀ c ∈ q.data, c.isWhitespace = true) :
    askQuestionStep q st = (st, none) := by
  have hdrop : q.data.dropWhile Char.isWhitespace = [] :=
    List.dropWhile_eq_nil_iff.mpr h
  have ht : trimJs q = "" := by
    unfold trimJs
    rw [hdrop]
    rfl
  unfold askQuestionStep
  rw [ht]
  simp

/-- Witness for C9: a whitespace-only question leaves a concrete chat state
untouched and sends nothing. -/
theorem ask_question_blank_is_noop_witness :
    askQuestionStep " \n\t " { messages := ["m"], inputValue := "v" } =
      ({ messages := ["m"], inputValue := "v" }, none) :=
  ask_question_blank_is_noop " \n\t " { messages := ["m"], inputValue := "v" } (by decide)

/-- C10: `escapeHtml` leaves no raw `<` or `>` in its output, and each
message builder (`addUserMessage`, `addErrorMessage`, `addAssistantMessage`)
passes its user-controlled payload — question, answer, SQL trace, error
message — through `escapeHtml`, so the number of raw `<` characters reaching
`innerHTML` never depends on the payload. -/
theorem escape_html_guards_innerHTML
    (q e a a2 s1 s2 tid : String) (n : Option Nat)
    (h1 : s1 ≠ "") (h2 : s2 ≠ "") :
    ('<' ∉ (escapeHtml q).data ∧ '>' ∉ (escapeHtml q).data) ∧
      (userMessageHtml q).data.count '<' = (userMessageHtml "").data.count '<' ∧
      (errorMessageHtml e).data.count '<' = (errorMessageHtml "").data.count '<' ∧
      (assistantMessageHtml { answer := a, sql := some s1, row_count := n } tid).data.count '<' =
        (assistantMessageHtml { answer := a2, sql := some s2, row_count := n } tid).data.count '<' := by
  have ht1 : jsTruthy (some s1) = true := by simp [jsTruthy, h1]
  have ht2 : jsTruthy (some s2) = true := by simp [jsTruthy, h2]
  refine ⟨⟨?_, ?_⟩, ?_, ?_, ?_⟩
  · exact List.count_eq_zero.mp (escapeHtml_count_lt q)
  · exact List.count_eq_zero.mp (escapeHtml_count_gt q)
  · simp only [userMessageHtml, String.data_append, List.count_append, escapeHtml_count_lt]
  · simp only [errorMessageHtml, String.data_append, List.count_append, escapeHtml_count_lt]
  · simp only [assistantMessageHtml, traceBlockHtml, ht1, ht2, if_true, Option.getD_some,
      String.data_append, List.count_append, escapeHtml_count_lt]

/-- Witness for C10: concrete payloads, one of them a script tag. -/
theorem escape_html_guards_innerHTML_witness :
    ('<' ∉ (escapeHtml "<script>alert(1)</script>").data ∧
        '>' ∉ (escapeHtml "<script>alert(1)</script>").data) ∧
      (userMessageHtml "<script>alert(1)</script>").data.count '<' =
        (userMessageHtml "").data.count '<' ∧
      (errorMessageHtml "oops & <fail>").data.count '<' =
        (errorMessageHtml "").data.count '<' ∧
      (assistantMessageHtml { answer := "hi", sql := some "SELECT 1 <> 2",
                              row_count := some 3 } "trace-1").data.count '<' =
        (assistantMessageHtml { answer := "<b>bold</b>", sql := some "SELECT 2",
                                row_count := some 3 } "trace-1").data.count '<' :=
  escape_html_guards_innerHTML "<script>alert(1)</script>" "oops & <fail>"
    "hi" "<b>bold</b>" "SELECT 1 <> 2" "SELECT 2" "trace-1" (some 3)
    (by decide) (by decide)

end Helio
